import Mathlib

/-!
Shallow embedding of the devtools browser-control library
(src/devtools/session.py and src/devtools/browser.py).

Python dictionaries (including OrderedDict) are modelled as insertion-ordered
association lists over string keys; Python exceptions become an error type with
one constructor per exception class; the child OS process observed by the
shutdown sequence becomes a status function indexed by the successive status
checks the close sequence performs.
-/

set_option autoImplicit false

/-- Python exception values raised by the embedded code, one constructor per
Python exception class appearing in the source. -/
inductive PyError where
  | typeError (msg : String)
  | valueError (msg : String)
  | runtimeError (msg : String)
  | keyError (key : String)
deriving DecidableEq, Repr

/-- JSON values as passed over the devtools wire protocol. -/
inductive J where
  | null
  | bool (b : Bool)
  | num (n : Int)
  | str (s : String)
  | arr (elems : List J)
  | obj (fields : List (String × J))
deriving BEq, Repr

/-- Key membership in a Python dict (`k in d`), the dict modelled as an
insertion-ordered association list. -/
def dHasKey {α : Type} : List (String × α) → String → Bool
  | [], _ => false
  | p :: rest, k => p.1 == k || dHasKey rest k

/-- Python `d[k]` lookup: the first (in a real dict, unique) binding. -/
def dGet {α : Type} : List (String × α) → String → Option α
  | [], _ => none
  | p :: rest, k => if p.1 == k then some p.2 else dGet rest k

/-- Python `d[k] = v`: replace the binding in place if the key exists,
otherwise append it. -/
def dSet {α : Type} : List (String × α) → String → α → List (String × α)
  | [], k, v => [(k, v)]
  | p :: rest, k, v => if p.1 == k then (k, v) :: rest else p :: dSet rest k v

/-- Python `del d[k]` on a dict whose keys are unique: drop the first binding
with the given key. -/
def dErase {α : Type} : List (String × α) → String → List (String × α)
  | [], _ => []
  | p :: rest, k => if p.1 == k then rest else p :: dErase rest k

/-- Number of bindings carrying a given key. -/
def countKey {α : Type} (d : List (String × α)) (k : String) : Nat :=
  (d.filter (fun p => p.1 == k)).length

/-- Dynamically-typed Python values, as far as `Session.__init__` inspects its
`session_id` argument with `isinstance(session_id, str)`. -/
inductive PyVal where
  | str (s : String)
  | int (n : Int)
  | bool (b : Bool)
  | none
deriving DecidableEq, Repr

/-- State of `devtools.session.Session`: the owning browser (an opaque handle),
the session identifier (empty string for the root session), the local message-id
counter, and the event-subscription table mapping an event name to a
`(callback, repeating)` pair; callbacks are modelled as opaque handles. -/
structure Session where
  browser : Nat
  session_id : String
  message_id : Nat
  subscriptions : List (String × (Nat × Bool))
deriving DecidableEq, Repr

/-- `Session.__init__` (session.py lines 2-11): the `isinstance(session_id, str)`
check runs before any attribute is assigned, so a non-string identifier yields a
`TypeError` and no session state. -/
def Session.init (browser : Nat) (session_id : PyVal) : Except PyError Session :=
  match session_id with
  | PyVal.str s =>
      Except.ok { browser := browser, session_id := s, message_id := 0, subscriptions := [] }
  | _ => Except.error (PyError.typeError "session_id must be a string")

/-- `Session.send_command` (session.py lines 13-26): build the JSON command dict
handed to `browser.write_json` — keys inserted in source order: `id`, `method`,
then `sessionId` when `self.session_id` is truthy (non-empty), then `params`
when truthy (non-None and non-empty) — and post-increment the local counter.
Returns the command dict together with the updated session. -/
def Session.send_command (s : Session) (command : String)
    (params : Option (List (String × J))) : List (String × J) × Session :=
  let current_id := s.message_id
  let sessTail := if s.session_id ≠ "" then [("sessionId", J.str s.session_id)] else []
  let paramsTail :=
    match params with
    | some ps => if ps.isEmpty then [] else [("params", J.obj ps)]
    | none => []
  (("id", J.num (Int.ofNat current_id)) :: ("method", J.str command) :: (sessTail ++ paramsTail),
   { s with message_id := s.message_id + 1 })

/-- Iterated `Session.send_command`: issue a list of `(method, params)` commands
in order through one session, collecting the command dicts. -/
def Session.send_many (s : Session) :
    List (String × Option (List (String × J))) → List (List (String × J)) × Session
  | [] => ([], s)
  | c :: rest =>
      let r := s.send_command c.1 c.2
      let rr := Session.send_many r.2 rest
      (r.1 :: rr.1, rr.2)

/-- The id carried by a command dict, when it is a number. -/
def cmdId (c : List (String × J)) : Option Int :=
  match dGet c "id" with
  | some (J.num n) => some n
  | _ => none

/-- The duplicate-subscription failure raised at session.py line 30; the spec
names this condition `DuplicateSubscription`. -/
def DuplicateSubscription : PyError :=
  PyError.valueError
    "You are already subscribed to this string, duplicate subscriptions are not allowed."

/-- The unknown-subscription failure raised at session.py line 36; the spec
names this condition `UnknownSubscription`. -/
def UnknownSubscription : PyError :=
  PyError.valueError "Cannot unsubscribe as string is not present in subscriptions"

/-- `Session.subscribe` (session.py lines 28-32): reject an already-registered
event name, otherwise store the `(callback, repeating)` pair. Returns the
(possibly unchanged) session state and the raised error, if any. -/
def Session.subscribe (s : Session) (string : String) (callback : Nat)
    (repeating : Bool) : Session × Option PyError :=
  if dHasKey s.subscriptions string then (s, some DuplicateSubscription)
  else
    ({ s with subscriptions := dSet s.subscriptions string (callback, repeating) }, none)

/-- `Session.unsubscribe` (session.py lines 34-37): reject an absent event name,
otherwise delete its binding. -/
def Session.unsubscribe (s : Session) (string : String) : Session × Option PyError :=
  if dHasKey s.subscriptions string then
    ({ s with subscriptions := dErase s.subscriptions string }, none)
  else (s, some UnknownSubscription)

/-- Modelled from the spec: class `Tab` (file tab.py, absent from src/) is "a
page-kind Target with an attached Session"; only its target identifier is
observed by the registry operations verified here. -/
structure Tab where
  target_id : String
deriving DecidableEq, Repr

/-- `Browser.add_tab` (browser.py lines 349-352): OrderedDict assignment keyed
by the tab's target id (the isinstance check is enforced by typing here). -/
def Browser.add_tab (tabs : List (String × Tab)) (tab : Tab) : List (String × Tab) :=
  dSet tabs tab.target_id tab

/-- `Browser.remove_tab` (browser.py lines 354-357): `del self.tabs[target_id]`,
which raises `KeyError` when the id is absent and leaves the registry intact. -/
def Browser.remove_tab (tabs : List (String × Tab)) (target_id : String) :
    List (String × Tab) × Option PyError :=
  if dHasKey tabs target_id then (dErase tabs target_id, none)
  else (tabs, some (PyError.keyError target_id))

/-- `Browser.close_tab` (browser.py lines 394-410): require an event loop, issue
`Target.closeTarget` (the remote response is supplied by the environment as
`response`), remove the tab from the registry, and only then inspect the
response for an error payload, raising `RuntimeError("Could not close tab")`.
Returns the updated registry and the outcome. -/
def Browser.close_tab (loop : Bool) (tabs : List (String × Tab)) (target_id : String)
    (response : List (String × J)) :
    List (String × Tab) × Except PyError (List (String × J)) :=
  if !loop then
    (tabs, Except.error (PyError.runtimeError
      "There is no eventloop, or was not passed to browser. Cannot use async methods"))
  else
    let r := Browser.remove_tab tabs target_id
    match r.2 with
    | some e => (r.1, Except.error e)
    | none =>
        if dHasKey response "error" then
          (r.1, Except.error (PyError.runtimeError "Could not close tab"))
        else (r.1, Except.ok response)

/-- One target record from the `Target.getTargets` response consumed at
browser.py lines 439-449. -/
structure TargetInfo where
  type : String
  targetId : String
deriving DecidableEq, Repr

/-- The per-target registration step of `Browser.populate_targets` (browser.py
lines 440-447): register a tab only for a page-kind target whose id is not
already in the registry. -/
def Browser.populate_step (tabs : List (String × Tab)) (info : TargetInfo) :
    List (String × Tab) :=
  if info.type == "page" && !(dHasKey tabs info.targetId) then
    Browser.add_tab tabs { target_id := info.targetId }
  else tabs

/-- `Browser.populate_targets` (browser.py lines 430-449), restricted to its
effect on the tab registry: fold the registration step over the enumerated
target list in order. -/
def Browser.populate_targets (tabs : List (String × Tab)) (infos : List TargetInfo) :
    List (String × Tab) :=
  infos.foldl Browser.populate_step tabs

/-- Python truthiness of an optional integer argument (`if width:`): `None` and
`0` are falsy. -/
def truthyInt : Option Int → Bool
  | none => false
  | some n => n != 0

/-- `Browser.create_tab` (browser.py lines 364-392), restricted to the
construction of the `Target.createTarget` params and the width/height advisory:
when `self.headless` and a truthy width or height are given, the advisory is
emitted and both are set to None; the params dict then receives `url` and the
surviving truthy `width`/`height`. Returns the params dict and whether the
advisory warning was emitted. -/
def Browser.create_tab_params (headless : Bool) (url : String)
    (width height : Option Int) : List (String × J) × Bool :=
  let warned := headless && (truthyInt width || truthyInt height)
  let width := if warned then none else width
  let height := if warned then none else height
  let params := [("url", J.str url)]
  let params :=
    match width with
    | some w => if w != 0 then params ++ [("width", J.num w)] else params
    | none => params
  let params :=
    match height with
    | some h => if h != 0 then params ++ [("height", J.num h)] else params
    | none => params
  (params, warned)

/-- Python truthiness of an optional string (`if not path:`): `None` and the
empty string are falsy. -/
def truthyStr : Option String → Bool
  | none => false
  | some s => s != ""

/-- Executable-path resolution in `BrowserProcess.__init__` (browser.py lines
56-67): keep a truthy explicit argument, else fall back to the `BROWSER_PATH`
environment variable, else to the module-level platform default
(`which_browser()`); when no candidate is truthy, raise `RuntimeError` (the
source message, abridged, tells the caller to set `BROWSER_PATH` or pass
`path=` into the `Browser()` constructor). -/
def BrowserProcess.resolve_path (path envPath defaultPath : Option String) :
    Except PyError String :=
  let path := if truthyStr path then path else envPath
  let path := if truthyStr path then path else defaultPath
  if truthyStr path then Except.ok (path.getD "")
  else Except.error (PyError.runtimeError "Could not find an acceptable browser.")

/-- Configuration established by `BrowserProcess.__init__`, as far as the
claims observe it. -/
structure BrowserConfig where
  path : String
  headless : Bool
  debug : Bool
deriving DecidableEq, Repr

/-- `BrowserProcess.__init__` (browser.py lines 32-97), restricted to the
configuration it establishes from its arguments and the environment. -/
def BrowserProcess.init (path : Option String) (headless : Bool) (debug : Bool)
    (envPath defaultPath : Option String) : Except PyError BrowserConfig :=
  (BrowserProcess.resolve_path path envPath defaultPath).map
    (fun p => { path := p, headless := headless, debug := debug })

/-- `Browser.__init__` (browser.py lines 329-344): line 344 forwards the literal
arguments `path=None, headless=True, debug=False` to the process initializer,
discarding the values the caller passed to `Browser()`. -/
def Browser.init (path : Option String) (headless : Bool) (debug : Bool)
    (envPath defaultPath : Option String) : Except PyError BrowserConfig :=
  BrowserProcess.init none true false envPath defaultPath

/-- Observable actions of the shutdown escalation in
`BrowserProcess._sync_close`. -/
inductive CloseAction where
  | browserClose
  | pipeClose
  | taskkill
  | terminate
  | kill
deriving DecidableEq, Repr

/-- `BrowserProcess._is_closed` (browser.py lines 211-222) applied to the
process status `st` observed at the moment of the call (`none` while running,
`some code` once exited with that code). With `wait == 0` the source returns the
Python truthiness of `subprocess.poll()` — `None` and the exit code `0` are both
falsy; with a positive wait it returns whether `subprocess.wait(wait)` returned
without timing out, i.e. whether the process has exited at all. -/
def BrowserProcess.is_closed (st : Option Int) (wait : Nat) : Bool :=
  if wait == 0 then
    match st with
    | none => false
    | some code => code != 0
  else st.isSome

/-- `BrowserProcess._sync_close` (browser.py lines 226-261). The child process
is modelled by `st`, giving its status (`none` while running, `some code` after
exit) at the k-th status check the close sequence performs, in order:
check 0 before anything, check 1 after `send_command("Browser.close")`, check 2
(wait 1) after `pipe.close()`, then on Windows check 3 guarding `taskkill` and
check 4 (wait 2) after it, or on POSIX check 3 after `terminate()` (the
post-`kill()` check only gates a debug print). Returns the actions performed,
in order, and the raised error, if any (the source kill-failure message
contains an apostrophe, elided here). -/
def BrowserProcess.sync_close (windows : Bool) (st : Nat → Option Int) :
    List CloseAction × Option PyError :=
  if BrowserProcess.is_closed (st 0) 0 then ([], none)
  else if BrowserProcess.is_closed (st 1) 0 then ([CloseAction.browserClose], none)
  else if BrowserProcess.is_closed (st 2) 1 then
    ([CloseAction.browserClose, CloseAction.pipeClose], none)
  else if windows then
    if !(BrowserProcess.is_closed (st 3) 0) then
      if BrowserProcess.is_closed (st 4) 2 then
        ([CloseAction.browserClose, CloseAction.pipeClose, CloseAction.taskkill], none)
      else
        ([CloseAction.browserClose, CloseAction.pipeClose, CloseAction.taskkill],
         some (PyError.runtimeError "Could not kill browser subprocess"))
    else ([CloseAction.browserClose, CloseAction.pipeClose], none)
  else
    if BrowserProcess.is_closed (st 3) 0 then
      ([CloseAction.browserClose, CloseAction.pipeClose, CloseAction.terminate], none)
    else
      ([CloseAction.browserClose, CloseAction.pipeClose, CloseAction.terminate, CloseAction.kill], none)

/-! ### Association-list lemmas -/

theorem dHasKey_dSet {α : Type} (d : List (String × α)) (k k' : String) (v : α) :
    dHasKey (dSet d k v) k' = (dHasKey d k' || (k == k')) := by
  induction d with
  | nil => simp [dSet, dHasKey, Bool.or_comm]
  | cons p rest ih =>
    by_cases h : p.1 = k
    · simp only [dSet, dHasKey, h, beq_self_eq_true, if_true]
      cases hkk : (k == k') <;> cases hr : dHasKey rest k' <;> simp [dHasKey, hkk, hr]
    · have hb : (p.1 == k) = false := by simp [h]
      simp [dSet, dHasKey, hb, ih, Bool.or_assoc]

theorem dGet_dSet_self {α : Type} (d : List (String × α)) (k : String) (v : α) :
    dGet (dSet d k v) k = some v := by
  induction d with
  | nil => simp [dSet, dGet]
  | cons p rest ih =>
    by_cases h : p.1 = k
    · simp [dSet, dGet, h]
    · have hb : (p.1 == k) = false := by simp [h]
      simp [dSet, dGet, hb, ih]

theorem countKey_dErase {α : Type} (d : List (String × α)) (k : String)
    (h : dHasKey d k = true) : countKey (dErase d k) k + 1 = countKey d k := by
  induction d with
  | nil => simp [dHasKey] at h
  | cons p rest ih =>
    by_cases hp : p.1 = k
    · simp [dErase, countKey, List.filter_cons, hp]
    · have hb : (p.1 == k) = false := by simp [hp]
      have hrest : dHasKey rest k = true := by
        simpa [dHasKey, hb] using h
      simp only [dErase, hb, Bool.false_eq_true, if_false]
      simpa [countKey, List.filter_cons, hb] using ih hrest

theorem dHasKey_append {α : Type} (a b : List (String × α)) (k : String) :
    dHasKey (a ++ b) k = (dHasKey a k || dHasKey b k) := by
  induction a with
  | nil => simp [dHasKey]
  | cons p rest ih => simp [dHasKey, ih, Bool.or_assoc]

/-! ### C1 and C2 -/

/-- C1: code bug witness. The source guard at browser.py line 369 reads
`if self.headless and (width or height)`, so with `headless=True` a supplied
width/height pair is stripped from the `Target.createTarget` params and the
advisory is emitted, while with `headless=False` the pair is included silently
— exactly inverted from the claim (and from the warning message's own text,
which says width and height only work in headless mode). -/
theorem Browser.create_tab_params_headless_inverted :
    Browser.create_tab_params true "about:blank" (some 800) (some 600)
      = ([("url", J.str "about:blank")], true)
    ∧ Browser.create_tab_params false "about:blank" (some 800) (some 600)
      = ([("url", J.str "about:blank"), ("width", J.num 800), ("height", J.num 600)], false) :=
  ⟨rfl, rfl⟩

/-- C2: code bug witness. `BrowserProcess.__init__` does resolve the path in the
claimed priority order (second conjunct: an explicit path wins), but
`Browser.__init__` line 344 forwards the literal `path=None` (and
`headless=True, debug=False`), discarding the caller's arguments, so
constructing a `Browser` with an explicit path and no environment override
still fails with the configuration error (first conjunct). -/
theorem Browser.init_discards_explicit_path :
    Browser.init (some "/opt/chrome") false true none none
      = Except.error (PyError.runtimeError "Could not find an acceptable browser.")
    ∧ BrowserProcess.init (some "/opt/chrome") false true none none
      = Except.ok { path := "/opt/chrome", headless := false, debug := true } :=
  ⟨rfl, rfl⟩

/-! ### C3, C4, C5: the shutdown escalation -/

/-- C3: code bug witness. A child that already exited cleanly (exit code 0) is
treated as still running by `_is_closed` (`subprocess.poll()` returns the falsy
`0`), so a second close does not short-circuit: it sends `Browser.close` and
closes the pipe (first conjunct). Only a nonzero exit code short-circuits the
close with no actions, as the claim demands for every exit code (second
conjunct). -/
theorem BrowserProcess.sync_close_after_clean_exit :
    BrowserProcess.sync_close false (fun _ => some 0)
      = ([CloseAction.browserClose, CloseAction.pipeClose], none)
    ∧ BrowserProcess.sync_close false (fun _ => some 1) = ([], none) :=
  ⟨rfl, rfl⟩

/-- C4: code bug witness. When the process exits with code 0 immediately after
the stage-1 `Browser.close` command, the post-stage-1 check `_is_closed()`
still reports the process as running (falsy `poll()` result), so stage 2
(`pipe.close()`) is invoked as well (first conjunct); with a nonzero exit code
the escalation short-circuits after stage 1 exactly as the claim states
(second conjunct). -/
theorem BrowserProcess.sync_close_exit_after_graceful :
    BrowserProcess.sync_close false (fun k => if k == 0 then none else some 0)
      = ([CloseAction.browserClose, CloseAction.pipeClose], none)
    ∧ BrowserProcess.sync_close false (fun k => if k == 0 then none else some 1)
      = ([CloseAction.browserClose], none) :=
  ⟨rfl, rfl⟩

/-- C5: counterexample. On a non-Windows platform, a close run in which the
process never confirms exit — not even after stage 4's forceful `kill()` —
returns normally with no raised error, contradicting the claim that shutdown
fails fatally with a shutdown error on every platform. -/
theorem BrowserProcess.sync_close_posix_never_raises :
    BrowserProcess.sync_close false (fun _ => none)
      = ([CloseAction.browserClose, CloseAction.pipeClose, CloseAction.terminate,
          CloseAction.kill], none) :=
  rfl

/-- C5 (amended): when no stage of the escalation — stage 4 included — produces
a confirmed exit, the close raises the fatal shutdown error on Windows only; on
non-Windows platforms it performs the full escalation and returns without
raising. -/
theorem BrowserProcess.sync_close_stage4_failure (st : Nat → Option Int)
    (h : ∀ k, st k = none) :
    BrowserProcess.sync_close true st
      = ([CloseAction.browserClose, CloseAction.pipeClose, CloseAction.taskkill],
         some (PyError.runtimeError "Could not kill browser subprocess"))
    ∧ BrowserProcess.sync_close false st
      = ([CloseAction.browserClose, CloseAction.pipeClose, CloseAction.terminate,
          CloseAction.kill], none) := by
  constructor <;> simp [BrowserProcess.sync_close, BrowserProcess.is_closed, h]

/-- C5 (amended) witness: the never-exiting process, concretely. -/
theorem BrowserProcess.sync_close_stage4_failure_witness :
    BrowserProcess.sync_close true (fun _ => none)
      = ([CloseAction.browserClose, CloseAction.pipeClose, CloseAction.taskkill],
         some (PyError.runtimeError "Could not kill browser subprocess"))
    ∧ BrowserProcess.sync_close false (fun _ => none)
      = ([CloseAction.browserClose, CloseAction.pipeClose, CloseAction.terminate,
          CloseAction.kill], none) :=
  BrowserProcess.sync_close_stage4_failure (fun _ => none) (fun _ => rfl)

/-! ### C6: close_tab and the registry -/

/-- C6: for a target id present in the registry, `close_tab` removes exactly
one binding for that id (the registry becomes the erased registry, and the
count of bindings for the id drops by exactly one) regardless of whether the
`Target.closeTarget` response reports success or carries an error payload; when
the response carries an error, the protocol error is still propagated to the
caller, the removal having already happened. -/
theorem Browser.close_tab_registry_spec (tabs : List (String × Tab)) (tid : String)
    (resp : List (String × J)) (hmem : dHasKey tabs tid = true) :
    (Browser.close_tab true tabs tid resp).1 = dErase tabs tid
    ∧ countKey (Browser.close_tab true tabs tid resp).1 tid + 1 = countKey tabs tid
    ∧ (dHasKey resp "error" = true →
        (Browser.close_tab true tabs tid resp).2
          = Except.error (PyError.runtimeError "Could not close tab"))
    ∧ (dHasKey resp "error" = false →
        (Browser.close_tab true tabs tid resp).2 = Except.ok resp) := by
  have h1 : Browser.remove_tab tabs tid = (dErase tabs tid, none) := by
    simp [Browser.remove_tab, hmem]
  by_cases he : dHasKey resp "error" = true
  · refine ⟨?_, ?_, ?_, ?_⟩ <;>
      simp [Browser.close_tab, h1, he, countKey_dErase tabs tid hmem]
  · refine ⟨?_, ?_, ?_, ?_⟩ <;>
      simp [Browser.close_tab, h1, he, countKey_dErase tabs tid hmem]

/-- C6 witness: a singleton registry, once against an error response and once
against a success response. -/
theorem Browser.close_tab_registry_spec_witness :
    (Browser.close_tab true [("t1", ⟨"t1"⟩)] "t1" [("error", J.str "boom")]).1 = []
    ∧ (Browser.close_tab true [("t1", ⟨"t1"⟩)] "t1" [("error", J.str "boom")]).2
        = Except.error (PyError.runtimeError "Could not close tab")
    ∧ (Browser.close_tab true [("t1", ⟨"t1"⟩)] "t1" [("result", J.obj [])]).2
        = Except.ok [("result", J.obj [])] := by
  refine ⟨?_, ?_, ?_⟩
  · exact (Browser.close_tab_registry_spec [("t1", ⟨"t1"⟩)] "t1"
      [("error", J.str "boom")] (by decide)).1
  · exact (Browser.close_tab_registry_spec [("t1", ⟨"t1"⟩)] "t1"
      [("error", J.str "boom")] (by decide)).2.2.1 (by decide)
  · exact (Browser.close_tab_registry_spec [("t1", ⟨"t1"⟩)] "t1"
      [("result", J.obj [])] (by decide)).2.2.2 (by decide)

/-! ### C7: subscribe / unsubscribe -/

/-- C7: `subscribe` fails with the duplicate-subscription error and leaves the
session (its subscription table included) unchanged when the event name is
already registered, and otherwise succeeds storing the `(callback, repeating)`
pair under the name; `unsubscribe` fails with the unknown-subscription error
and leaves the session unchanged when the name is absent, and otherwise
succeeds removing exactly one binding for the name. -/
theorem Session.subscribe_unsubscribe_spec (s : Session) (name : String)
    (cb : Nat) (rep : Bool) :
    (dHasKey s.subscriptions name = true →
        s.subscribe name cb rep = (s, some DuplicateSubscription))
    ∧ (dHasKey s.subscriptions name = false →
        s.subscribe name cb rep
          = ({ s with subscriptions := dSet s.subscriptions name (cb, rep) }, none)
        ∧ dGet ((s.subscribe name cb rep).1).subscriptions name = some (cb, rep))
    ∧ (dHasKey s.subscriptions name = false →
        s.unsubscribe name = (s, some UnknownSubscription))
    ∧ (dHasKey s.subscriptions name = true →
        s.unsubscribe name
          = ({ s with subscriptions := dErase s.subscriptions name }, none)
        ∧ countKey ((s.unsubscribe name).1).subscriptions name + 1
            = countKey s.subscriptions name) := by
  refine ⟨?_, ?_, ?_, ?_⟩ <;> intro h
  · simp [Session.subscribe, h]
  · simp [Session.subscribe, h, dGet_dSet_self]
  · simp [Session.unsubscribe, h]
  · simp [Session.unsubscribe, h, countKey_dErase s.subscriptions name h]

/-- C7 witness: a session with one registered event name, exercising the
duplicate-subscription failure, the unknown-subscription failure, a successful
subscribe and a successful unsubscribe. -/
theorem Session.subscribe_unsubscribe_spec_witness :
    (Session.mk 0 "" 0 [("evt", (7, true))]).subscribe "evt" 9 false
      = (Session.mk 0 "" 0 [("evt", (7, true))], some DuplicateSubscription)
    ∧ (Session.mk 0 "" 0 [("evt", (7, true))]).unsubscribe "other"
      = (Session.mk 0 "" 0 [("evt", (7, true))], some UnknownSubscription)
    ∧ dGet ((Session.mk 0 "" 0 [("evt", (7, true))]).subscribe "other" 9 false).1.subscriptions
        "other" = some (9, false)
    ∧ countKey ((Session.mk 0 "" 0 [("evt", (7, true))]).unsubscribe "evt").1.subscriptions
        "evt" + 1 = countKey [("evt", (7, true))] "evt" := by
  refine ⟨?_, ?_, ?_, ?_⟩
  · exact (Session.subscribe_unsubscribe_spec (Session.mk 0 "" 0 [("evt", (7, true))])
      "evt" 9 false).1 (by decide)
  · exact (Session.subscribe_unsubscribe_spec (Session.mk 0 "" 0 [("evt", (7, true))])
      "other" 9 false).2.2.1 (by decide)
  · exact ((Session.subscribe_unsubscribe_spec (Session.mk 0 "" 0 [("evt", (7, true))])
      "other" 9 false).2.1 (by decide)).2
  · exact ((Session.subscribe_unsubscribe_spec (Session.mk 0 "" 0 [("evt", (7, true))])
      "evt" 9 false).2.2.2 (by decide)).2

/-! ### C10: Session construction requires a string identifier -/

/-- C10: constructing a session with a string identifier succeeds with the
fresh state (counter 0, empty subscription table), and constructing it with any
non-string value fails with the `TypeError` before any session state exists. -/
theorem Session.init_requires_string (b : Nat) (v : PyVal) :
    (∀ t : String, v = PyVal.str t →
        Session.init b v
          = Except.ok { browser := b, session_id := t, message_id := 0, subscriptions := [] })
    ∧ ((∀ t : String, v ≠ PyVal.str t) →
        Session.init b v = Except.error (PyError.typeError "session_id must be a string")) := by
  constructor
  · intro t ht
    subst ht
    rfl
  · intro h
    cases v with
    | str t => exact absurd rfl (h t)
    | int n => rfl
    | bool bb => rfl
    | none => rfl

/-- C10 witness: a string identifier is accepted, an integer one is rejected. -/
theorem Session.init_requires_string_witness :
    Session.init 0 (PyVal.str "abc")
      = Except.ok { browser := 0, session_id := "abc", message_id := 0, subscriptions := [] }
    ∧ Session.init 0 (PyVal.int 3)
      = Except.error (PyError.typeError "session_id must be a string") :=
  ⟨(Session.init_requires_string 0 (PyVal.str "abc")).1 "abc" rfl,
   (Session.init_requires_string 0 (PyVal.int 3)).2 (fun t h => PyVal.noConfusion h)⟩

/-! ### C9: populate_targets -/

theorem dHasKey_populate_step (tabs : List (String × Tab)) (i : TargetInfo) (tid : String) :
    dHasKey (Browser.populate_step tabs i) tid
      = (dHasKey tabs tid || (i.type == "page" && i.targetId == tid)) := by
  unfold Browser.populate_step Browser.add_tab
  by_cases hp : i.type = "page"
  · cases hk : dHasKey tabs i.targetId with
    | true =>
      simp only [hp, beq_self_eq_true, hk, Bool.not_true, Bool.and_false, if_false,
        Bool.true_and]
      by_cases he : i.targetId = tid
      · subst he
        simp [hk]
      · simp [he]
    | false =>
      simp [hp, hk, dHasKey_dSet]
  · simp [hp]

theorem dHasKey_populate_targets (tabs : List (String × Tab)) (infos : List TargetInfo)
    (tid : String) :
    dHasKey (Browser.populate_targets tabs infos) tid
      = (dHasKey tabs tid
          || infos.any (fun i => i.type == "page" && i.targetId == tid)) := by
  induction infos generalizing tabs with
  | nil => simp [Browser.populate_targets]
  | cons i rest ih =>
    have hstep : Browser.populate_targets tabs (i :: rest)
        = Browser.populate_targets (Browser.populate_step tabs i) rest := rfl
    rw [hstep, ih, dHasKey_populate_step]
    simp [Bool.or_assoc]

theorem populate_targets_noop (tabs : List (String × Tab)) (infos : List TargetInfo)
    (h : ∀ i ∈ infos, i.type = "page" → dHasKey tabs i.targetId = true) :
    Browser.populate_targets tabs infos = tabs := by
  induction infos with
  | nil => rfl
  | cons i rest ih =>
    have hstep : Browser.populate_step tabs i = tabs := by
      unfold Browser.populate_step
      by_cases hp : i.type = "page"
      · simp [hp, h i (by simp) hp]
      · simp [hp]
    have hcons : Browser.populate_targets tabs (i :: rest)
        = Browser.populate_targets (Browser.populate_step tabs i) rest := rfl
    rw [hcons, hstep]
    exact ih (fun j hj hpj => h j (by simp [hj]) hpj)

/-- C9: a target id is present in the registry after `populate_targets` exactly
when it was already present or occurs in the enumerated list as a page-kind
target (so only page-kind, not-already-known targets are registered), and
running `populate_targets` a second time against the same enumerated target
list leaves the tab registry unchanged. -/
theorem Browser.populate_targets_spec (tabs : List (String × Tab))
    (infos : List TargetInfo) :
    (∀ tid, dHasKey (Browser.populate_targets tabs infos) tid
        = (dHasKey tabs tid
            || infos.any (fun i => i.type == "page" && i.targetId == tid)))
    ∧ Browser.populate_targets (Browser.populate_targets tabs infos) infos
        = Browser.populate_targets tabs infos := by
  refine ⟨fun tid => dHasKey_populate_targets tabs infos tid, ?_⟩
  apply populate_targets_noop
  intro i hi hpage
  rw [dHasKey_populate_targets]
  have hany : infos.any (fun j => j.type == "page" && j.targetId == i.targetId) = true :=
    List.any_eq_true.mpr ⟨i, hi, by simp [hpage]⟩
  simp [hany]

/-! ### C8: command ids and the sessionId field -/

theorem cmdId_send_command (s : Session) (c : String) (p : Option (List (String × J))) :
    cmdId (s.send_command c p).1 = some (Int.ofNat s.message_id) := by
  simp [Session.send_command, cmdId, dGet]

theorem send_command_message_id (s : Session) (c : String)
    (p : Option (List (String × J))) :
    (s.send_command c p).2.message_id = s.message_id + 1 := rfl

theorem send_command_hasKey_sessionId (s : Session) (c : String)
    (p : Option (List (String × J))) :
    dHasKey (s.send_command c p).1 "sessionId" = decide (s.session_id ≠ "") := by
  by_cases h : s.session_id = ""
  · cases p with
    | none => simp [Session.send_command, dHasKey, h]
    | some ps =>
      by_cases hps : ps.isEmpty <;>
        simp [Session.send_command, dHasKey, dHasKey_append, h, hps]
  · cases p with
    | none => simp [Session.send_command, dHasKey, h]
    | some ps =>
      by_cases hps : ps.isEmpty <;>
        simp [Session.send_command, dHasKey, dHasKey_append, h, hps]

theorem send_many_fst_cons (s : Session) (c : String × Option (List (String × J)))
    (rest : List (String × Option (List (String × J)))) :
    (s.send_many (c :: rest)).1
      = (s.send_command c.1 c.2).1 :: (((s.send_command c.1 c.2).2).send_many rest).1 := rfl

theorem send_many_map_cmdId (cmds : List (String × Option (List (String × J))))
    (s : Session) :
    ((s.send_many cmds).1).map cmdId
      = (List.range cmds.length).map (fun k : Nat => some ((s.message_id : Int) + (k : Int))) := by
  induction cmds generalizing s with
  | nil => simp [Session.send_many]
  | cons c rest ih =>
    rw [send_many_fst_cons, List.map_cons, cmdId_send_command,
      ih ((s.send_command c.1 c.2).2)]
    simp only [send_command_message_id, List.length_cons, List.range_succ_eq_map,
      List.map_cons, List.map_map, Function.comp]
    rw [List.cons_eq_cons]
    constructor
    · simp only [Option.some.injEq, Int.ofNat_eq_natCast]
      omega
    · apply List.map_congr_left
      intro a _
      simp only [Function.comp_apply, Option.some.injEq]
      push_cast
      ring

theorem send_many_hasKey_sessionId (cmds : List (String × Option (List (String × J))))
    (s : Session) :
    ∀ c ∈ (s.send_many cmds).1, dHasKey c "sessionId" = decide (s.session_id ≠ "") := by
  induction cmds generalizing s with
  | nil =>
    intro c hc
    simp [Session.send_many] at hc
  | cons c0 rest ih =>
    intro c hc
    rw [send_many_fst_cons] at hc
    rcases List.mem_cons.mp hc with h | h
    · rw [h]
      exact send_command_hasKey_sessionId s c0.1 c0.2
    · exact ih ((s.send_command c0.1 c0.2).2) c h

theorem send_many_cmdId_get (cmds : List (String × Option (List (String × J))))
    (s : Session) (i : Nat) (hi : i < (s.send_many cmds).1.length) :
    cmdId ((s.send_many cmds).1.get ⟨i, hi⟩) = some ((s.message_id : Int) + i) := by
  have hmap := send_many_map_cmdId cmds s
  have h1 : ((s.send_many cmds).1.map cmdId).get ⟨i, by simpa using hi⟩
      = cmdId ((s.send_many cmds).1.get ⟨i, hi⟩) := by
    simp [List.getElem_map]
  rw [← h1, List.get_of_eq hmap]
  simp [List.getElem_map, List.getElem_range]

/-- C8: issuing a list of commands through one session gives them the ids
counter, counter+1, counter+2, ... in order (first conjunct), so the ids of
successive commands are strictly increasing and never repeat (third conjunct),
and every issued command dict carries the `sessionId` field exactly when the
session's identifier is non-empty (second conjunct). -/
theorem Session.send_command_ids_spec (s : Session)
    (cmds : List (String × Option (List (String × J)))) :
    ((s.send_many cmds).1.map cmdId
        = (List.range cmds.length).map (fun k : Nat => some ((s.message_id : Int) + (k : Int))))
    ∧ (∀ c ∈ (s.send_many cmds).1, dHasKey c "sessionId" = decide (s.session_id ≠ ""))
    ∧ (∀ i j : Nat, ∀ hi : i < (s.send_many cmds).1.length,
        ∀ hj : j < (s.send_many cmds).1.length, i < j →
          ∃ a b : Int, cmdId ((s.send_many cmds).1.get ⟨i, hi⟩) = some a
            ∧ cmdId ((s.send_many cmds).1.get ⟨j, hj⟩) = some b ∧ a < b) := by
  refine ⟨send_many_map_cmdId cmds s, send_many_hasKey_sessionId cmds s, ?_⟩
  intro i j hi hj hij
  refine ⟨(s.message_id : Int) + i, (s.message_id : Int) + j,
    send_many_cmdId_get cmds s i hi, send_many_cmdId_get cmds s j hj, by omega⟩

/-- C8 witness: two commands issued on a session whose counter starts at 5 get
the ids 5 and 6. -/
theorem Session.send_command_ids_spec_witness :
    ((Session.mk 0 "sess" 5 []).send_many [("a", none), ("b", none)]).1.map cmdId
      = [some 5, some 6] := by
  rw [(Session.send_command_ids_spec (Session.mk 0 "sess" 5 [])
    [("a", none), ("b", none)]).1]
  rfl
